import Mathlib

/-!
Verification of `src/next.config.js`.

The source file declares a single JavaScript object literal `nextConfig`
with two top-level fields, `experimental` (an object with the boolean
field `appDir`) and `images` (an object with the string-array field
`domains`), and exports it via `module.exports = nextConfig`.

We embed JavaScript values as an inductive type of JSON-like trees and
transcribe the literal verbatim.  The specification's `load()` operation
is the host reading `module.exports`; it is modelled as a total function
returning the exported literal inside `Except`, so that "never raises"
is a statable property.
-/

/-- A JavaScript value as it occurs in the configuration literal:
booleans, strings, arrays, and objects (ordered key-value lists). -/
inductive JsValue : Type where
  | bool : Bool → JsValue
  | str : String → JsValue
  | arr : List JsValue → JsValue
  | obj : List (String × JsValue) → JsValue

/-- Field lookup on a JavaScript object value (first binding wins,
as in a JS object literal); `none` on non-objects or missing keys. -/
def JsValue.lookup : JsValue → String → Option JsValue
  | .obj kvs, k => List.lookup k kvs
  | _, _ => none

/-- The list of keys of a JavaScript object value, in written order. -/
def JsValue.keys : JsValue → List String
  | .obj kvs => kvs.map Prod.fst
  | _ => []

/-- Whether a JavaScript value is a boolean. -/
def JsValue.isBool : JsValue → Bool
  | .bool _ => true
  | _ => false

/-- The string payloads of a JavaScript array value, in order. -/
def JsValue.asString : JsValue → Option String
  | .str s => some s
  | _ => none

/-- The string elements of a JavaScript array value, in written order. -/
def stringsOf : JsValue → List String
  | .arr vs => vs.filterMap JsValue.asString
  | _ => []

/-- The configuration literal `nextConfig` of `src/next.config.js`,
lines 2-9, transcribed field by field. -/
def nextConfig : JsValue :=
  .obj
    [("experimental", .obj [("appDir", .bool true)]),
     ("images", .obj
       [("domains", .arr
         [.str "images.unsplash.com", .str "ik.imagekit.io",
          .str "tailark.com", .str "html.tailus.io"])])]

/-- `module.exports = nextConfig` (line 11 of the source): the value a
host observes when loading the module. -/
def moduleExports : JsValue := nextConfig

/-- The spec's `load()` operation: reading the module yields the exported
object.  The source is a literal binding followed by an export, so every
load returns normally with the same value; `Except` makes the absence of
errors explicit. -/
def load : Unit → Except String JsValue := fun _ => .ok moduleExports

/-- The spec attribute `imageRemoteSources`: the `images.domains` field
of a configuration object, as a list of hostname strings. -/
def imageRemoteSources (cfg : JsValue) : List String :=
  match cfg.lookup "images" with
  | some imgs =>
    match imgs.lookup "domains" with
    | some d => stringsOf d
    | none => []
  | none => []

/-- The spec attribute `experimentalFlags`: the bindings of the
`experimental` field of a configuration object. -/
def experimentalFlags (cfg : JsValue) : List (String × JsValue) :=
  match cfg.lookup "experimental" with
  | some (.obj kvs) => kvs
  | _ => []

/-- The keys of the object stored under field `k` of `cfg`. -/
def keysAt (cfg : JsValue) (k : String) : List String :=
  match cfg.lookup k with
  | some v => v.keys
  | none => []

/-- Modelled from the spec: a character allowed inside a DNS label
(letter, digit, or hyphen). -/
def isHostChar (c : Char) : Bool := c.isAlpha || c.isDigit || c == '-'

/-- Split a character list at every dot, keeping empty pieces so that a
leading, trailing, or doubled dot yields an empty label. -/
def splitOnDot : List Char → List (List Char)
  | [] => [[]]
  | c :: cs =>
    if c == '.' then [] :: splitOnDot cs
    else
      match splitOnDot cs with
      | [] => [[c]]
      | l :: ls => (c :: l) :: ls

/-- Modelled from the spec: a DNS label is non-empty and consists of
letters, digits, and hyphens only. -/
def validLabel (l : List Char) : Bool := !l.isEmpty && l.all isHostChar

/-- Modelled from the spec: a valid DNS hostname is a non-empty string
of dot-separated valid labels (so `images.unsplash.com` passes and
`not a host!` fails). -/
def specValidHostname (s : String) : Bool :=
  !s.isEmpty && (splitOnDot s.data).all validLabel

/-- A configuration file whose `images.domains` field is the given list
of hostname literals, as in the spec's concrete scenario. -/
def mkImagesConfig (ds : List String) : JsValue :=
  .obj [("images", .obj [("domains", .arr (ds.map JsValue.str))])]

theorem filterMap_asString_map_str (ds : List String) :
    (ds.map JsValue.str).filterMap JsValue.asString = ds := by
  induction ds with
  | nil => rfl
  | cons d ds ih => simp [JsValue.asString, ih]

theorem imageRemoteSources_mkImagesConfig (ds : List String) :
    imageRemoteSources (mkImagesConfig ds) = ds := by
  show (ds.map JsValue.str).filterMap JsValue.asString = ds
  exact filterMap_asString_map_str ds

/-- C1: `load()` is deterministic and pure: any two invocations within a
process return the same value, in particular the same
`imageRemoteSources` hostname list. -/
theorem c1_load_deterministic (u v : Unit) :
    load u = load v ∧
    (load u).map imageRemoteSources = (load v).map imageRemoteSources := by
  exact ⟨rfl, rfl⟩

/-- C2: the `imageRemoteSources` list of the exported configuration
contains no duplicate entries. -/
theorem c2_imageRemoteSources_nodup :
    (imageRemoteSources moduleExports).Nodup := by decide

/-- C3: every entry of `imageRemoteSources` is a non-empty string
matching the DNS hostname pattern; `images.unsplash.com` passes the
pattern and `not a host!` fails it. -/
theorem c3_hostnames_valid :
    ((imageRemoteSources moduleExports).all specValidHostname = true) ∧
    (∀ s ∈ imageRemoteSources moduleExports, s ≠ "") ∧
    specValidHostname "images.unsplash.com" = true ∧
    specValidHostname "not a host!" = false := by
  refine ⟨by decide, ?_, by decide, by decide⟩
  intro s hs
  fin_cases hs <;> decide

/-- C4: the key set of `experimentalFlags` is exactly the fixed set
containing `appDir`, and every value in the mapping is a boolean. -/
theorem c4_experimentalFlags_shape :
    (experimentalFlags moduleExports).map Prod.fst = ["appDir"] ∧
    (experimentalFlags moduleExports).all (fun kv => kv.2.isBool) = true := by
  exact ⟨rfl, rfl⟩

/-- C5: `load()` raises no error on any invocation: it always returns
the exported literal normally, performing no validation. -/
theorem c5_load_never_errors (u : Unit) :
    load u = Except.ok nextConfig ∧ ∀ e, load u ≠ Except.error e := by
  exact ⟨rfl, fun e h => by simp [load] at h⟩

/-- C6: the configuration is constructed once at module initialization
and never mutated: the exported binding is the constructed literal, and
every read, at any point of the process lifetime, observes that same
value. -/
theorem c6_immutable (u : Unit) :
    moduleExports = nextConfig ∧
    (load u).map id = Except.ok nextConfig ∧
    ∀ v : Unit, load u = load v := by
  exact ⟨rfl, rfl, fun _ => rfl⟩

/-- C7: `imageRemoteSources` preserves the written order of the
`images.domains` list with no reordering or deduplication: for the
literal input with domains `a.com, b.com` the result is exactly that
list, and for the source configuration it is the four domains in
written order. -/
theorem c7_order_preserved :
    (∀ ds : List String, imageRemoteSources (mkImagesConfig ds) = ds) ∧
    imageRemoteSources (mkImagesConfig ["a.com", "b.com"]) =
      ["a.com", "b.com"] ∧
    imageRemoteSources moduleExports =
      ["images.unsplash.com", "ik.imagekit.io", "tailark.com",
       "html.tailus.io"] := by
  exact ⟨imageRemoteSources_mkImagesConfig,
    imageRemoteSources_mkImagesConfig _, rfl⟩

/-- C8: the concrete exported configuration value is exactly the object
with `experimental.appDir = true` and `images.domains` the four-element
domain list in written order. -/
theorem c8_concrete_value :
    moduleExports =
      JsValue.obj
        [("experimental", JsValue.obj [("appDir", JsValue.bool true)]),
         ("images", JsValue.obj
           [("domains", JsValue.arr
             [JsValue.str "images.unsplash.com",
              JsValue.str "ik.imagekit.io",
              JsValue.str "tailark.com",
              JsValue.str "html.tailus.io"])])] := rfl

/-- C9: the exported object has exactly the top-level keys
`experimental` and `images`; `experimental` has exactly the key
`appDir`, and `images` has exactly the key `domains`. -/
theorem c9_key_sets :
    moduleExports.keys = ["experimental", "images"] ∧
    keysAt moduleExports "experimental" = ["appDir"] ∧
    keysAt moduleExports "images" = ["domains"] := by
  exact ⟨rfl, rfl, rfl⟩
